import Mathlib

/-!
Verification of the wifiobd-bot checkout / cart / payment-reconciliation core.

The Lean definitions below are a shallow embedding of the Python sources:

* `app/services/cart.py`     (CartService: Redis-backed per-user carts)
* `app/services/opencart.py` (catalog reads; `get_products_batch`)
* `app/services/order.py`    (OrderService: order rows in the bot database)
* `app/services/yoomoney.py` (payment gateway wrapper, modelled abstractly)
* `app/handlers/payment.py`  (confirm_and_create_order, check_payment,
                              cancel_payment)
* `app/handlers/admin.py`    (admin_cancel_order)
* `app/handlers/checkout.py` (process_phone_manual)

Conventions of the embedding:

* Redis hashes and SQL tables become association lists / lists of records;
  `await`ed I/O is replaced by explicit state passing on a `World` record.
* External collaborators (the YooMoney gateway, the OpenCart HTTP API) are
  parameters of the handler functions: a gateway answer and a mirroring
  outcome are inputs, so every outcome of those calls can be analysed.
* Python numbers on the money path are modelled exactly over `ℚ`; the
  separate binary64 model `fl64` / `get_cart_total_float` captures the fact
  that the source actually computes on IEEE-754 doubles (`float(...)`),
  which claim C9 is about.
* Exceptions of the underlying stores (Redis/SQL connectivity) are not
  modelled; handler-level `try/except` branches that the control flow of a
  claim depends on (the gateway failure branch, the mirroring failure
  branch) are modelled explicitly.
-/

namespace WifiObdBot

/-! ### Catalog (app/services/opencart.py, read side)

A product row joined with its description, as returned by
`OpenCartService.get_product_details` / `get_products_batch`.
`price` is the OpenCart `Numeric(15,4)` column, an exact decimal, modelled
as a rational.  The `float(product.price)` conversion performed by the
Python dictionaries is modelled separately by `fl64` for claim C9. -/
structure Product where
  product_id : ℕ
  name : String
  description : String
  model : String
  price : ℚ
  quantity : ℤ
  image : String
  deriving Repr, DecidableEq

/-- The external OpenCart catalog: a partial map from product id to product. -/
abbrev Catalog : Type := ℕ → Option Product

/-- Models `OpenCartService.get_products_batch`: one query returning the map
of the requested ids that exist in the catalog (ids not in the database are
simply absent from the result).  The price returned here is still the raw
`Numeric(15,4)` decimal; the dictionaries the source builds hold
`float(product.price)` instead — that conversion is modelled by
`get_products_batch_float` below, which the money-path claims use.  This
raw-decimal version serves as the exact-decimal reference and feeds the
handler claims whose statements do not depend on arithmetic. -/
def get_products_batch (cat : Catalog) (ids : List ℕ) : ℕ → Option Product :=
  fun pid => if pid ∈ ids then cat pid else none

/-! ### Cart store (app/services/cart.py)

One user's cart is the Redis hash `cart:{user_id}`: field = product id
(stringified in the source), value = a JSON object with `product_id`,
`quantity` and `options`.  We model the hash as an association list keyed
by product id.  TTL handling (`expire`) does not affect any claim and is
not modelled. -/
structure CartItem where
  product_id : ℕ
  quantity : ℤ
  options : List (String × String)
  deriving Repr, DecidableEq

abbrev Cart : Type := List (ℕ × CartItem)

/-- Redis `HGET key field`. -/
def hget (c : Cart) (pid : ℕ) : Option CartItem :=
  (c.find? (fun e => e.1 = pid)).map (fun e => e.2)

/-- Redis `HSET key field value`: replaces the value when the field exists,
otherwise appends a new field. -/
def hset (c : Cart) (pid : ℕ) (it : CartItem) : Cart :=
  if (c.find? (fun e => e.1 = pid)).isSome then
    c.map (fun e => if e.1 = pid then (pid, it) else e)
  else
    c ++ [(pid, it)]

/-- Redis `HDEL key field`. -/
def hdel (c : Cart) (pid : ℕ) : Cart :=
  c.filter (fun e => ¬ e.1 = pid)

/-- CartService.add_item: reads the current value of the field, increments
the stored quantity when present, stores a fresh item otherwise.  The
source puts no lower bound on `quantity`; the only call site
(`app/handlers/cart.py`, `add_to_cart`) always passes `quantity=1`. -/
def add_item (c : Cart) (product_id : ℕ) (quantity : ℤ := 1)
    (options : List (String × String) := []) : Cart :=
  match hget c product_id with
  | some item => hset c product_id { item with quantity := item.quantity + quantity }
  | none => hset c product_id
      { product_id := product_id, quantity := quantity, options := options }

/-- CartService.remove_item: `HDEL`, returning whether a field was removed
(`result > 0` in the source). -/
def remove_item (c : Cart) (product_id : ℕ) : Cart × Bool :=
  (hdel c product_id, (hget c product_id).isSome)

/-- CartService.update_quantity: a non-positive quantity delegates to
`remove_item`; otherwise the stored quantity is replaced, and a missing
line yields `False` with no write. -/
def update_quantity (c : Cart) (product_id : ℕ) (quantity : ℤ) : Cart × Bool :=
  if quantity ≤ 0 then
    remove_item c product_id
  else
    match hget c product_id with
    | none => (c, false)
    | some item => (hset c product_id { item with quantity := quantity }, true)

/-- CartService.clear_cart: `DEL` of the whole hash. -/
def clear_cart (_ : Cart) : Cart := []

/-! ### Cart view (CartService.get_cart) -/

/-- One element of the `items` list built by `get_cart`. -/
structure CartViewItem where
  product_id : ℕ
  product : Product
  quantity : ℤ
  options : List (String × String)
  subtotal : ℚ
  deriving Repr, DecidableEq

structure CartView where
  items : List CartViewItem
  total : ℚ
  deriving Repr, DecidableEq

/-- Loop body of `get_cart`: a line that resolves in the batch result is
appended to `items` with `subtotal = price * quantity` and added to the
running total; an unresolvable line is skipped (and in particular never
deleted from the store).  The arithmetic here is the exact-value
idealization; the binary64 body the source actually executes is
`cart_view_step_float` below. -/
def cart_view_step (products : ℕ → Option Product)
    (acc : List CartViewItem × ℚ) (e : ℕ × CartItem) : List CartViewItem × ℚ :=
  match products e.1 with
  | some p =>
      (acc.1 ++ [{ product_id := e.1, product := p, quantity := e.2.quantity,
                   options := e.2.options,
                   subtotal := p.price * (e.2.quantity : ℚ) }],
       acc.2 + p.price * (e.2.quantity : ℚ))
  | none => acc

/-- CartService.get_cart: `HGETALL`, one `get_products_batch` query for all
stored product ids, then the join loop above.  Monetary arithmetic is
modelled exactly over `ℚ` in this version — an idealization: the source
computes on binary64 floats.  It is used (a) by the handler claims whose
statements depend only on control flow (cart emptiness, statuses, labels,
order counts), and (b) as the exact-decimal reference value; the faithful
binary64 view is `get_cart_float` below, which the money-path claims are
stated against.  The source returns an empty view for an empty hash; the
function is total, modelling the guarantee that `get_cart` does not raise
on a partially resolvable cart. -/
def get_cart (cat : Catalog) (c : Cart) : CartView :=
  if c = [] then { items := [], total := 0 }
  else
    let products := get_products_batch cat (c.map (fun e => e.1))
    let r := c.foldl (cart_view_step products) ([], 0)
    { items := r.1, total := r.2 }

/-- CartService.get_item_count: `HLEN`, the number of distinct lines. -/
def get_item_count (c : Cart) : ℕ := c.length

/-! ### Sequences of cart operations (for claim C4) -/

/-- One user-level cart-store operation, with the integer quantity argument
of the corresponding CartService method. -/
inductive CartOp where
  | add (pid : ℕ) (qty : ℤ)
  | setQuantity (pid : ℕ) (qty : ℤ)
  | remove (pid : ℕ)
  deriving Repr, DecidableEq

def applyCartOp (c : Cart) : CartOp → Cart
  | .add pid qty => add_item c pid qty
  | .setQuantity pid qty => (update_quantity c pid qty).1
  | .remove pid => (remove_item c pid).1

def applyCartOps (c : Cart) (ops : List CartOp) : Cart :=
  ops.foldl applyCartOp c

/-- The cart-line invariant of the spec: every stored line has a positive
quantity. -/
def cartPositive (c : Cart) : Prop :=
  ∀ e ∈ c, 1 ≤ e.2.quantity

instance (c : Cart) : Decidable (cartPositive c) := by
  unfold cartPositive; infer_instance

/-! ### Order ledger (app/database/models.py, app/services/order.py) -/

/-- One element of the JSON `items` snapshot stored on an order
(`OrderService.create_order` builds it from the cart view). -/
structure OrderItem where
  product_id : ℕ
  name : String
  model : String
  price : ℚ
  quantity : ℤ
  deriving Repr, DecidableEq

/-- An `orders` row.  Timestamps are abstract ticks (`ℕ`); columns that no
claim touches (`yoomoney_payment_id`, `created_at`) are omitted. -/
structure Order where
  id : ℕ
  user_id : ℕ
  opencart_order_id : Option ℕ
  yoomoney_label : Option String
  amount : ℚ
  status : String
  customer_name : String
  customer_phone : String
  customer_email : Option String
  delivery_address : Option String
  delivery_comment : Option String
  items : List OrderItem
  paid_at : Option ℕ
  updated_at : Option ℕ
  deriving Repr, DecidableEq

/-- The `checkout_data` dictionary accumulated by the checkout FSM
(`state.get_data()` in `confirm_and_create_order`). -/
structure CheckoutData where
  name : Option String
  phone : Option String
  email : Option String
  address : Option String
  comment : Option String
  deriving Repr, DecidableEq

/-- OrderService.create_order: snapshots the cart view into the JSON
`items` column (product id, name, model, price, quantity per line), stores
`amount = cart["total"]` and starts in status `"pending"` with no payment
label and no mirrored order id.  This version copies the view's amount
verbatim — the value-level idealization used by the handler claims; the
persisted binary64 amount with its `Numeric(10,2)` quantization is
modelled by `create_order_float` below, which the snapshot claim is
stated against. -/
def create_order (order_id : ℕ) (user_id : ℕ) (cart : CartView)
    (delivery_data : CheckoutData) : Order :=
  { id := order_id
    user_id := user_id
    opencart_order_id := none
    yoomoney_label := none
    amount := cart.total
    status := "pending"
    customer_name := delivery_data.name.getD ""
    customer_phone := delivery_data.phone.getD ""
    customer_email := delivery_data.email
    delivery_address := delivery_data.address
    delivery_comment := delivery_data.comment
    items := cart.items.map (fun it =>
      { product_id := it.product.product_id
        name := it.product.name
        model := it.product.model
        price := it.product.price
        quantity := it.quantity })
    paid_at := none
    updated_at := none }

/-- OrderService.update_status as the SQL `UPDATE orders SET ... WHERE id =
order_id`: every matching row gets the new status and `updated_at`, and
`paid_at` is stamped exactly when the new status is `"paid"`. -/
def update_status_orders (now : ℕ) (orders : List Order) (order_id : ℕ)
    (status : String) : List Order :=
  orders.map (fun o =>
    if o.id = order_id then
      { o with status := status, updated_at := some now,
               paid_at := if status = "paid" then some now else o.paid_at }
    else o)

/-- OrderService.update_payment_label: stores the YooMoney label. -/
def update_payment_label_orders (now : ℕ) (orders : List Order)
    (order_id : ℕ) (label : String) : List Order :=
  orders.map (fun o =>
    if o.id = order_id then
      { o with yoomoney_label := some label, updated_at := some now }
    else o)

/-- OrderService.update_opencart_order_id: records the mirrored order id. -/
def update_opencart_order_id_orders (now : ℕ) (orders : List Order)
    (order_id : ℕ) (oc_id : ℕ) : List Order :=
  orders.map (fun o =>
    if o.id = order_id then
      { o with opencart_order_id := some oc_id, updated_at := some now }
    else o)

/-- OrderService.get_order / get_order_with_user:
`SELECT ... WHERE id = order_id`, one row or none. -/
def findOrder (orders : List Order) (order_id : ℕ) : Option Order :=
  orders.find? (fun o => o.id = order_id)

/-! ### World state threaded through the handlers -/

/-- The mutable state the payment handlers touch: the bot's order table,
the autoincrement counter backing `orders.id`, the per-user Redis carts,
the external catalog, and a count of orders created in the external
OpenCart storefront (the observable effect of successful mirroring). -/
structure World where
  orders : List Order
  nextOrderId : ℕ
  carts : ℕ → Cart
  catalog : Catalog
  ocOrdersCreated : ℕ

def World.findOrder? (w : World) (order_id : ℕ) : Option Order :=
  findOrder w.orders order_id

/-- A catalog price change performed directly in the OpenCart database:
only the catalog component of the world changes. -/
def setPrice (w : World) (pid : ℕ) (newPrice : ℚ) : World :=
  { w with catalog := fun q =>
      if q = pid then (w.catalog q).map (fun p => { p with price := newPrice })
      else w.catalog q }

/-- A sequence of catalog price changes. -/
def applyPriceChanges (w : World) (changes : List (ℕ × ℚ)) : World :=
  changes.foldl (fun w2 ch => setPrice w2 ch.1 ch.2) w

/-! ### Payment handlers (app/handlers/payment.py) -/

/-- Replies the handlers surface to the user (callback alerts / messages). -/
inductive Reply where
  | cartEmpty
  | orderCreated (order_id : ℕ) (label : String)
  | orderCreationError
  | orderNotFound
  | alreadyPaid
  | paymentConfirmed
  | paymentPending
  | checkFailed
  | alreadyPaidContactSupport
  | orderCancelled
  | adminOrderCancelled
  deriving Repr, DecidableEq

/-- What `YooMoneyService.check_payment` reports for a label: the handler
only distinguishes `"success"`, `"pending"` and everything else. -/
inductive GatewayStatus where
  | success
  | pending
  | error
  deriving Repr, DecidableEq

/-- Primitive side effects of `check_payment`, in execution order, used to
state the ordering claims C1/C2. -/
inductive Effect where
  | updateStatus (order_id : ℕ) (status : String)
  | clearCart (user_id : ℕ)
  | ocOrderCreated (order_id : ℕ) (oc_id : ℕ)
  | mirrorFailed
  deriving Repr, DecidableEq

def Effect.isClearCart : Effect → Bool
  | .clearCart _ => true
  | _ => false

/-- Handler `confirm_and_create_order` (fires on the `confirm_order`
callback while the FSM is in `CheckoutStates.confirm`).  It reads the cart,
rejects an empty one, persists a new order via `OrderService.create_order`
(the database commit happens inside that call), then calls
`YooMoneyService.create_payment`.  `gateway_label = none` models the
gateway call raising (timeout/error): the surrounding `try/except` catches
it after the order was already committed, so the order stays `pending`
with no label.  On success the label is stored on the freshly created
order.  In both outcomes the FSM state is cleared afterwards, so a retry
must go through checkout again and re-enter this handler. -/
def confirm_and_create_order (gateway_label : Option String) (now : ℕ)
    (w : World) (user_id : ℕ) (checkout_data : CheckoutData) : World × Reply :=
  let cart := get_cart w.catalog (w.carts user_id)
  if cart.items = [] then
    (w, .cartEmpty)
  else
    let order := create_order w.nextOrderId user_id cart checkout_data
    let w1 : World := { w with orders := w.orders ++ [order],
                               nextOrderId := w.nextOrderId + 1 }
    match gateway_label with
    | none => (w1, .orderCreationError)
    | some label =>
        let w2 : World := { w1 with
          orders := update_payment_label_orders now w1.orders order.id label }
        (w2, .orderCreated order.id label)

/-- Handler `check_payment` (callback `checkpay:{order_id}`).

`gw` is the gateway's answer for a label (`YooMoneyService.check_payment`);
`mirror` is the outcome of the best-effort OpenCart mirroring block:
`some oc_id` when `opencart_service.create_order` succeeds with that remote
id, `none` when any call inside the `try` block raises (the `except`
swallows it and the handler still reports success to the user).

Control flow of the source: a missing order answers "not found"; an order
already `"paid"` answers success immediately and performs no effect;
otherwise the gateway is consulted, and on `"success"` the order is marked
paid (stamping `paid_at`), the user's cart is cleared, and mirroring is
attempted.  The returned effect list records the writes in execution
order. -/
def check_payment (gw : Option String → GatewayStatus) (mirror : Option ℕ)
    (now : ℕ) (w : World) (order_id : ℕ) : World × Reply × List Effect :=
  match findOrder w.orders order_id with
  | none => (w, .orderNotFound, [])
  | some order =>
    if order.status = "paid" then
      (w, .alreadyPaid, [])
    else
      match gw order.yoomoney_label with
      | .success =>
          let w1 : World := { w with
            orders := update_status_orders now w.orders order_id "paid" }
          let w2 : World := { w1 with
            carts := fun u => if u = order.user_id then [] else w1.carts u }
          match mirror with
          | some oc_id =>
              let w3 : World := { w2 with
                orders := update_opencart_order_id_orders now w2.orders order_id oc_id,
                ocOrdersCreated := w2.ocOrdersCreated + 1 }
              (w3, .paymentConfirmed,
               [.updateStatus order_id "paid", .clearCart order.user_id,
                .ocOrderCreated order_id oc_id])
          | none =>
              (w2, .paymentConfirmed,
               [.updateStatus order_id "paid", .clearCart order.user_id,
                .mirrorFailed])
      | .pending => (w, .paymentPending, [])
      | .error => (w, .checkFailed, [])

/-- Handler `cancel_payment` (callback `cancelpay:{order_id}`): a missing
order answers "not found"; a `"paid"` order is rejected with the
"contact support" alert and nothing is written; any other status is set to
`"cancelled"`. -/
def cancel_payment (now : ℕ) (w : World) (order_id : ℕ) : World × Reply :=
  match findOrder w.orders order_id with
  | none => (w, .orderNotFound)
  | some order =>
    if order.status = "paid" then
      (w, .alreadyPaidContactSupport)
    else
      ({ w with orders := update_status_orders now w.orders order_id "cancelled" },
       .orderCancelled)

/-- Handler `admin_cancel_order` (callback `admin:cancel:{order_id}`,
app/handlers/admin.py): calls `OrderService.update_status(db, order_id,
"cancelled")` directly, with no check of the order's current status. -/
def admin_cancel_order (now : ℕ) (w : World) (order_id : ℕ) : World × Reply :=
  ({ w with orders := update_status_orders now w.orders order_id "cancelled" },
   .adminOrderCancelled)

/-! ### Checkout dialogue: manual phone entry (app/handlers/checkout.py) -/

/-- The aiogram FSM states of the checkout dialogue
(app/states/checkout.py, `CheckoutStates`). -/
inductive CheckoutState where
  | waiting_phone
  | waiting_phone_manual
  | waiting_name
  | waiting_address
  | confirm
  deriving Repr, DecidableEq

/-- Python `str.strip()`: leading and trailing whitespace removed. -/
def pyStrip (s : String) : String :=
  String.mk
    (((s.data.dropWhile Char.isWhitespace).reverse.dropWhile
        Char.isWhitespace).reverse)

/-- Python `str.startswith(c)` for a one-character argument. -/
def startsWithChar (s : String) (c : Char) : Bool :=
  match s.data with
  | [] => false
  | c2 :: _ => c2 = c

/-- Python slicing `s[1:]`. -/
def strDrop1 (s : String) : String := String.mk (s.data.drop 1)

/-- The digits of a string, as in `''.join(filter(str.isdigit, phone))`. -/
def phone_digits (s : String) : String :=
  String.mk (s.data.filter Char.isDigit)

/-- Result of the `process_phone_manual` handler: the FSM state afterwards,
the phone stored in the FSM data, the phone written to the user profile
(`user_service.update_phone`), and whether the input was accepted. -/
structure PhoneStep where
  state : CheckoutState
  data_phone : Option String
  profile_phone_written : Option String
  accepted : Bool
  deriving Repr, DecidableEq

/-- Handler `process_phone_manual` (fires while the FSM is in
`waiting_phone_manual`).  The text is stripped, its digits are counted; a
count below 10 answers an error and returns, leaving the FSM state and
data untouched.  Otherwise the phone is canonicalised: a stripped input
starting with `8` becomes `+7` followed by the remaining digits, an input
not starting with `+` gets `+` prefixed to its digits, and an input
already starting with `+` is kept verbatim.  The phone is stored in the
FSM data and the user profile, and `show_order_confirmation` moves the
FSM to `confirm`. -/
def process_phone_manual (text : String) (data_phone : Option String) : PhoneStep :=
  let phone := pyStrip text
  let digits := phone_digits phone
  if digits.length < 10 then
    { state := .waiting_phone_manual, data_phone := data_phone,
      profile_phone_written := none, accepted := false }
  else
    let phone :=
      if startsWithChar phone '8' then "+7" ++ strDrop1 digits
      else if ¬ startsWithChar phone '+' then "+" ++ digits
      else phone
    { state := .confirm, data_phone := some phone,
      profile_phone_written := some phone, accepted := true }

/-! ### Binary64 model of the Python float path (for claim C9)

`app/services/opencart.py` converts the `Numeric(15,4)` database price
with `float(product.price)`, `app/services/cart.py` accumulates
`total = 0.0; subtotal = price * quantity; total += subtotal` on floats,
and `app/handlers/payment.py` passes `float(order.amount)` to the
gateway.  Python floats are IEEE-754 binary64 values; `fl64` rounds an
exact rational to the nearest binary64 value (ties to even).  The model
covers the normal range (all monetary values of this system lie far
inside it); subnormals and overflow are not modelled. -/

/-- Fuel-driven floor of the base-2 logarithm of a natural number
(`log2fuel fuel n = ⌊log₂ n⌋` for `1 ≤ n < 2 ^ fuel`). -/
def log2fuel : ℕ → ℕ → ℕ
  | 0, _ => 0
  | fuel + 1, n => if n ≤ 1 then 0 else log2fuel fuel (n / 2) + 1

/-- Floor of the base-2 logarithm of a positive rational. -/
def floorLog2 (q : ℚ) : ℤ :=
  let a : ℤ := log2fuel 4096 q.num.toNat
  let b : ℤ := log2fuel 4096 q.den
  let g := a - b
  let ok : Bool :=
    if 0 ≤ g then decide ((2 : ℤ) ^ g.toNat * (q.den : ℤ) ≤ q.num)
    else decide ((q.den : ℤ) ≤ (2 : ℤ) ^ (-g).toNat * q.num)
  if ok then g else g - 1

/-- Round a rational to the nearest integer, ties to even. -/
def roundHalfEven (x : ℚ) : ℤ :=
  let n := x.num
  let d : ℤ := (x.den : ℤ)
  let f := n.fdiv d
  let r := n - f * d
  if 2 * r < d then f
  else if d < 2 * r then f + 1
  else if f % 2 = 0 then f else f + 1

/-- Integer power of two as a rational, for signed exponents. -/
def qpow2 (g : ℤ) : ℚ :=
  if 0 ≤ g then (2 : ℚ) ^ g.toNat else ((2 : ℚ) ^ (-g).toNat)⁻¹

/-- Rounding of a non-negative rational to the nearest IEEE-754 binary64
value (53 significant bits, round to nearest, ties to even). -/
def fl64 (q : ℚ) : ℚ :=
  if q ≤ 0 then 0
  else
    let e := floorLog2 q
    let s := (52 : ℤ) - e
    let m := roundHalfEven (q * qpow2 s)
    (m : ℚ) * qpow2 (-s)

/-- Float addition and multiplication as Python performs them: the exact
result rounded back to binary64. -/
def flAdd (a b : ℚ) : ℚ := fl64 (a + b)

def flMul (a b : ℚ) : ℚ := fl64 (a * b)

/-- The `total` computed by `CartService.get_cart` at the float level:
each catalog price passes through `float(product.price)` when
`get_products_batch` builds its dictionaries, each `subtotal = price *
quantity` is a float multiplication, and `total += subtotal` is a float
addition starting from `0.0`. -/
def get_cart_total_float (cat : Catalog) (c : Cart) : ℚ :=
  let products := get_products_batch cat (c.map (fun e => e.1))
  c.foldl (fun total e =>
    match products e.1 with
    | some p => flAdd total (flMul (fl64 p.price) (e.2.quantity : ℚ))
    | none => total) 0

/-- A product dictionary as `get_products_batch` actually builds it: the
decimal database price has passed through `float(product.price)`
(opencart.py line 238), so the `price` field holds a binary64 value. -/
def floatPrice (p : Product) : Product := { p with price := fl64 p.price }

/-- `OpenCartService.get_products_batch` at the float level: the batch
result of `get_products_batch` with each price converted by `float(...)`
as the source dictionaries hold it. -/
def get_products_batch_float (cat : Catalog) (ids : List ℕ) :
    ℕ → Option Product :=
  fun pid => (get_products_batch cat ids pid).map floatPrice

/-- Loop body of `get_cart` at the float level: `subtotal = price *
quantity` is a binary64 multiplication of the float price, and
`total += subtotal` is a binary64 addition. -/
def cart_view_step_float (products : ℕ → Option Product)
    (acc : List CartViewItem × ℚ) (e : ℕ × CartItem) :
    List CartViewItem × ℚ :=
  match products e.1 with
  | some p =>
      (acc.1 ++ [{ product_id := e.1, product := p, quantity := e.2.quantity,
                   options := e.2.options,
                   subtotal := flMul p.price (e.2.quantity : ℚ) }],
       flAdd acc.2 (flMul p.price (e.2.quantity : ℚ)))
  | none => acc

/-- CartService.get_cart with the arithmetic the source actually
performs: the batch dictionaries hold `float(price)` and the subtotals
and the running total are computed in binary64.  This is the faithful
model of the money path; `get_cart` above is its exact-value
idealization. -/
def get_cart_float (cat : Catalog) (c : Cart) : CartView :=
  if c = [] then { items := [], total := 0 }
  else
    let products := get_products_batch_float cat (c.map (fun e => e.1))
    let r := c.foldl (cart_view_step_float products) ([], 0)
    { items := r.1, total := r.2 }

/-- The float-to-`Numeric(10,2)` quantization applied when the order row
is inserted (models.py: `amount = Column(Numeric(10, 2))`): the binary64
amount is stored rounded to 2 decimal places.  A binary64 value is never
an exact midpoint of the 2-decimal grid (a midpoint has denominator 200,
not a power of two), so all SQL backends' tie-breaking modes agree on
these inputs; rounding half up is used here. -/
def quantize2 (q : ℚ) : ℚ :=
  let x := q * 100 + 1 / 2
  ((x.num.fdiv (x.den : ℤ) : ℤ) : ℚ) / 100

/-- OrderService.create_order as persisted: `amount = cart["total"]` is
the binary64 total of the float cart view, stored into the
`Numeric(10,2)` column, i.e. quantized to 2 decimal places on insert;
the JSON item snapshot keeps the binary64 prices unquantized. -/
def create_order_float (order_id user_id : ℕ) (cart : CartView)
    (delivery_data : CheckoutData) : Order :=
  { create_order order_id user_id cart delivery_data with
    amount := quantize2 cart.total }

/-- The per-line binary64 subtotals of the resolvable lines, in store
order: `float(price) * quantity` computed in binary64. -/
def float_line_subtotals (cat : Catalog) (c : Cart) : List ℚ :=
  c.filterMap (fun e =>
    (cat e.1).map (fun p => flMul (fl64 p.price) (e.2.quantity : ℚ)))

/-- Left-to-right binary64 accumulation starting from `0.0`, as the
`total += subtotal` loop performs it. -/
def flSum (l : List ℚ) : ℚ := l.foldl flAdd 0

/-! ## Helper lemmas: the cart store -/

lemma mem_hset {c : Cart} {pid : ℕ} {it : CartItem} {e : ℕ × CartItem}
    (h : e ∈ hset c pid it) : e = (pid, it) ∨ e ∈ c := by
  unfold hset at h
  by_cases hc : (c.find? (fun x => x.1 = pid)).isSome
  · rw [if_pos hc] at h
    rcases List.mem_map.mp h with ⟨a, ha, hae⟩
    by_cases hp : a.1 = pid
    · left; rw [if_pos hp] at hae; exact hae.symm
    · right; rw [if_neg hp] at hae; exact hae ▸ ha
  · rw [if_neg hc] at h
    rcases List.mem_append.mp h with h1 | h1
    · right; exact h1
    · left; simpa using h1

lemma mem_hdel {c : Cart} {pid : ℕ} {e : ℕ × CartItem}
    (h : e ∈ hdel c pid) : e ∈ c :=
  List.mem_of_mem_filter h

lemma hget_mem {c : Cart} {pid : ℕ} {it : CartItem}
    (h : hget c pid = some it) : ∃ q, (q, it) ∈ c := by
  unfold hget at h
  rcases Option.map_eq_some'.mp h with ⟨e, he, hit⟩
  refine ⟨e.1, ?_⟩
  have hm := List.mem_of_find?_eq_some he
  rw [← hit]
  simpa using hm

/-- add_item preserves positivity of all lines when the added quantity is
at least 1 (increments of a positive stored quantity stay positive). -/
lemma cartPositive_add_item {c : Cart} {pid : ℕ} {q : ℤ}
    {opts : List (String × String)}
    (hc : cartPositive c) (hq : 1 ≤ q) :
    cartPositive (add_item c pid q opts) := by
  intro e he
  unfold add_item at he
  cases hg : hget c pid with
  | some item =>
      rw [hg] at he
      rcases mem_hset he with h1 | h1
      · rcases hget_mem hg with ⟨p2, hp2⟩
        have hitem : 1 ≤ item.quantity := hc _ hp2
        subst h1
        show 1 ≤ item.quantity + q
        omega
      · exact hc _ h1
  | none =>
      rw [hg] at he
      rcases mem_hset he with h1 | h1
      · subst h1; simpa using hq
      · exact hc _ h1

lemma cartPositive_remove_item {c : Cart} {pid : ℕ}
    (hc : cartPositive c) : cartPositive (remove_item c pid).1 :=
  fun _ he => hc _ (mem_hdel he)

lemma cartPositive_update_quantity {c : Cart} {pid : ℕ} {q : ℤ}
    (hc : cartPositive c) : cartPositive (update_quantity c pid q).1 := by
  unfold update_quantity
  by_cases hq : q ≤ 0
  · rw [if_pos hq]; exact cartPositive_remove_item hc
  · rw [if_neg hq]
    cases hg : hget c pid with
    | none => exact hc
    | some item =>
        intro e he
        rcases mem_hset he with h1 | h1
        · subst h1; simp only; omega
        · exact hc _ h1

/-- An operation whose quantity argument respects what the call sites of
CartService.add_item actually pass (`quantity=1`; more generally any
positive quantity). -/
def addPositive : CartOp → Prop
  | .add _ q => 1 ≤ q
  | _ => True

instance : DecidablePred addPositive := by
  intro op; cases op <;> (unfold addPositive; infer_instance)

lemma cartPositive_applyCartOp {c : Cart} {op : CartOp}
    (hc : cartPositive c) (hop : addPositive op) :
    cartPositive (applyCartOp c op) := by
  cases op with
  | add pid q => exact cartPositive_add_item hc hop
  | setQuantity pid q => exact cartPositive_update_quantity hc
  | remove pid => exact cartPositive_remove_item hc

/-! ## Claim C4 -/

/-- Claim C4 as stated is refuted: with arbitrary integer quantity
arguments, `add_item` (which the source does not guard) stores a line with
quantity 0 — the sequence consisting of the single operation
`add(product 1, qty 0)` on an empty cart yields a cart whose only line has
quantity `0 ≤ 0`, violating "no operation ever stores a line whose
quantity is ≤ 0". -/
theorem C4_counterexample :
    applyCartOps [] [CartOp.add 1 0]
      = [(1, { product_id := 1, quantity := 0, options := [] })]
    ∧ ¬ cartPositive (applyCartOps [] [CartOp.add 1 0]) := by
  constructor
  · rfl
  · decide

/-- Claim C4, amended: for every sequence of add / setQuantity / remove
operations in which each add uses a positive quantity (as every call site
in the source does), a cart satisfying the positivity invariant keeps it:
no resulting line has quantity ≤ 0.  setQuantity with qty ≤ 0 deletes the
line, and no operation of such a sequence ever stores a non-positive
line.  (Unrestricted adds can store one — see the counterexample.) -/
theorem C4_no_nonpositive_lines (c : Cart) (ops : List CartOp)
    (hc : cartPositive c) (hops : ∀ op ∈ ops, addPositive op) :
    cartPositive (applyCartOps c ops) := by
  induction ops generalizing c with
  | nil => exact hc
  | cons op ops ih =>
      exact ih (applyCartOp c op)
        (cartPositive_applyCartOp hc (hops op (by simp)))
        (fun op2 h2 => hops op2 (by simp [h2]))

theorem C4_no_nonpositive_lines_witness :
    cartPositive ([] : Cart)
    ∧ (∀ op ∈ [CartOp.add 1 1, CartOp.add 1 2, CartOp.setQuantity 1 0,
               CartOp.add 2 5, CartOp.setQuantity 2 7, CartOp.remove 3],
        addPositive op)
    ∧ cartPositive (applyCartOps []
        [CartOp.add 1 1, CartOp.add 1 2, CartOp.setQuantity 1 0,
         CartOp.add 2 5, CartOp.setQuantity 2 7, CartOp.remove 3]) :=
  ⟨by decide, by decide,
   C4_no_nonpositive_lines [] _ (by decide) (by decide)⟩

/-! ## Claim C10 -/

/-- Claim C10: update_quantity with a positive quantity for a product id
that has no stored line returns False and leaves the cart unchanged — it
never creates a line. -/
theorem C10_update_quantity_missing_line (c : Cart) (pid : ℕ) (qty : ℤ)
    (hmiss : hget c pid = none) (hpos : 0 < qty) :
    update_quantity c pid qty = (c, false) := by
  unfold update_quantity
  rw [if_neg (by omega), hmiss]

/-! ## Helper lemmas: the cart view -/

/-- The view item `get_cart` builds for a resolvable line. -/
def viewItemOf (e : ℕ × CartItem) (p : Product) : CartViewItem :=
  { product_id := e.1, product := p, quantity := e.2.quantity,
    options := e.2.options, subtotal := p.price * (e.2.quantity : ℚ) }

lemma foldl_cart_view_step (f : ℕ → Option Product) (c : Cart)
    (acc : List CartViewItem × ℚ) :
    c.foldl (cart_view_step f) acc
      = (acc.1 ++ c.filterMap (fun e => (f e.1).map (viewItemOf e)),
         acc.2 + ((c.filterMap (fun e => (f e.1).map (viewItemOf e))).map
                    (fun it => it.subtotal)).sum) := by
  induction c generalizing acc with
  | nil => simp
  | cons e c ih =>
      rw [List.foldl_cons]
      cases hfe : f e.1 with
      | none =>
          have hstep : cart_view_step f acc e = acc := by
            unfold cart_view_step; rw [hfe]
          rw [hstep, ih]
          simp [List.filterMap_cons, hfe]
      | some p =>
          have hstep : cart_view_step f acc e
              = (acc.1 ++ [viewItemOf e p],
                 acc.2 + p.price * (e.2.quantity : ℚ)) := by
            unfold cart_view_step; rw [hfe]; rfl
          rw [hstep, ih]
          simp [List.filterMap_cons, hfe, viewItemOf, add_assoc]

/-- Closed form of `get_cart`: the view lists exactly the lines that
resolve in the catalog, and the total is the sum of their subtotals. -/
lemma get_cart_eq (cat : Catalog) (c : Cart) :
    get_cart cat c
      = { items := c.filterMap (fun e => (cat e.1).map (viewItemOf e)),
          total := ((c.filterMap (fun e => (cat e.1).map (viewItemOf e))).map
                      (fun it => it.subtotal)).sum } := by
  unfold get_cart
  by_cases hc : c = []
  · subst hc; simp
  · rw [if_neg hc]
    simp only [foldl_cart_view_step]
    have hcongr : c.filterMap
          (fun e => ((get_products_batch cat (c.map (fun x => x.1))) e.1).map
            (viewItemOf e))
        = c.filterMap (fun e => (cat e.1).map (viewItemOf e)) := by
      refine List.filterMap_congr (fun e he => ?_)
      have : e.1 ∈ c.map (fun x => x.1) := List.mem_map_of_mem _ he
      unfold get_products_batch
      rw [if_pos this]
    rw [hcongr]
    simp

lemma get_cart_total_eq (cat : Catalog) (c : Cart) :
    (get_cart cat c).total
      = (c.filterMap (fun e =>
          (cat e.1).map (fun p => p.price * (e.2.quantity : ℚ)))).sum := by
  rw [get_cart_eq]
  show ((c.filterMap _).map _).sum = _
  rw [List.map_filterMap]
  refine congrArg List.sum (List.filterMap_congr (fun e _ => ?_))
  cases cat e.1 <;> rfl

lemma get_cart_items_pids (cat : Catalog) (c : Cart) :
    (get_cart cat c).items.map (fun it => it.product_id)
      = (c.filter (fun e => (cat e.1).isSome)).map (fun e => e.1) := by
  rw [get_cart_eq]
  show (c.filterMap _).map _ = _
  induction c with
  | nil => simp
  | cons e c ih =>
      cases hce : cat e.1 with
      | none => simpa [List.filterMap_cons, List.filter_cons, hce] using ih
      | some p =>
          simpa [List.filterMap_cons, List.filter_cons, hce, viewItemOf]
            using ih

/-! ## The store after a view read -/

/-- The Redis store after a `get_cart` / `get_cart_float` call.  The
source only issues `HGETALL`: unresolvable lines are dropped from the
returned view, but no `HDEL` / `HSET` / `DEL` is issued, so the stored
hash is exactly the one read. -/
def get_cart_store_after (_ : Catalog) (c : Cart) : Cart := c

/-! ## Helper lemma: the frame of catalog price changes -/

lemma applyPriceChanges_orders (changes : List (ℕ × ℚ)) (w : World) :
    (applyPriceChanges w changes).orders = w.orders := by
  induction changes generalizing w with
  | nil => rfl
  | cons ch changes ih => exact ih (setPrice w ch.1 ch.2)

theorem C10_update_quantity_missing_line_witness :
    hget [(2, { product_id := 2, quantity := 1, options := [] })] 1 = none
    ∧ (0 : ℤ) < 3
    ∧ update_quantity
        [(2, { product_id := 2, quantity := 1, options := [] })] 1 3
        = ([(2, { product_id := 2, quantity := 1, options := [] })], false) :=
  ⟨by decide, by decide,
   C10_update_quantity_missing_line _ 1 3 (by decide) (by decide)⟩

/-! ## Helper lemmas: the order table -/

lemma findOrder_map_if (os : List Order) (oid oid2 : ℕ) (F : Order → Order)
    (hF : ∀ x, (F x).id = x.id) :
    findOrder (os.map (fun x => if x.id = oid2 then F x else x)) oid
      = (findOrder os oid).map (fun x => if x.id = oid2 then F x else x) := by
  unfold findOrder
  rw [List.find?_map]
  have hp : ((fun o : Order => decide (o.id = oid))
        ∘ fun x => if x.id = oid2 then F x else x)
      = (fun o : Order => decide (o.id = oid)) := by
    funext x
    by_cases hx : x.id = oid2
    · simp [Function.comp, hx, hF]
    · simp [Function.comp, hx]
  rw [hp]

lemma findOrder_update_self (os : List Order) (oid : ℕ) (F : Order → Order)
    (hF : ∀ x, (F x).id = x.id) (o : Order)
    (h : findOrder os oid = some o) :
    findOrder (os.map (fun x => if x.id = oid then F x else x)) oid
      = some (F o) := by
  rw [findOrder_map_if os oid oid F hF, h]
  have h2 : os.find? (fun x => decide (x.id = oid)) = some o := h
  have h3 := List.find?_some h2
  simp only [decide_eq_true_eq] at h3
  rw [Option.map_some', if_pos h3]

lemma findOrder_update_other (os : List Order) (oid oid2 : ℕ)
    (F : Order → Order) (hF : ∀ x, (F x).id = x.id) (o : Order)
    (h : findOrder os oid = some o) (hne : ¬ o.id = oid2) :
    findOrder (os.map (fun x => if x.id = oid2 then F x else x)) oid
      = some o := by
  rw [findOrder_map_if os oid oid2 F hF, h]
  simp [hne]

lemma findOrder_update_status_self (now : ℕ) (os : List Order) (oid : ℕ)
    (st : String) (o : Order) (h : findOrder os oid = some o) :
    findOrder (update_status_orders now os oid st) oid
      = some { o with
               status := st,
               updated_at := some now,
               paid_at := if st = "paid" then some now else o.paid_at } :=
  findOrder_update_self os oid
    (fun x => { x with
                status := st,
                updated_at := some now,
                paid_at := if st = "paid" then some now else x.paid_at })
    (fun _ => rfl) o h

lemma findOrder_update_oc_self (now : ℕ) (os : List Order) (oid ocid : ℕ)
    (o : Order) (h : findOrder os oid = some o) :
    findOrder (update_opencart_order_id_orders now os oid ocid) oid
      = some { o with
               opencart_order_id := some ocid,
               updated_at := some now } :=
  findOrder_update_self os oid
    (fun x => { x with opencart_order_id := some ocid, updated_at := some now })
    (fun _ => rfl) o h

lemma findOrder_update_label_other (now : ℕ) (os : List Order)
    (oid oid2 : ℕ) (lbl : String) (o : Order)
    (h : findOrder os oid = some o) (hne : ¬ o.id = oid2) :
    findOrder (update_payment_label_orders now os oid2 lbl) oid = some o :=
  findOrder_update_other os oid oid2
    (fun x => { x with yoomoney_label := some lbl, updated_at := some now })
    (fun _ => rfl) o h hne

lemma findOrder_append (os1 os2 : List Order) (oid : ℕ) :
    findOrder (os1 ++ os2) oid
      = (findOrder os1 oid).or (findOrder os2 oid) := by
  unfold findOrder
  exact List.find?_append

/-! ## Claim C1 -/

/-- Claim C1: check_payment is idempotent once an order is paid.  An order
whose status is already `"paid"` makes the handler answer success
("already paid") immediately: the world is unchanged and no effect is
performed, for every gateway answer and mirroring outcome.  And starting
from a not-yet-paid order, once the gateway reports success, a second
check_payment call is exactly such a no-op: over the two calls the user's
cart is cleared exactly once (the cart is empty after the first call and
the combined effect trace contains exactly one cart-clearing write) and at
most one OpenCart mirror order is created. -/
theorem C1_check_payment_idempotent (w : World) (oid : ℕ) (o : Order)
    (hfind : findOrder w.orders oid = some o) :
    (o.status = "paid" →
      ∀ (gw0 : Option String → GatewayStatus) (m0 : Option ℕ) (t0 : ℕ),
        check_payment gw0 m0 t0 w oid = (w, Reply.alreadyPaid, []))
    ∧ (o.status ≠ "paid" →
      ∀ (gw1 gw2 : Option String → GatewayStatus) (m1 m2 : Option ℕ)
        (t1 t2 : ℕ),
        gw1 o.yoomoney_label = GatewayStatus.success →
        (check_payment gw1 m1 t1 w oid).1.carts o.user_id = []
        ∧ check_payment gw2 m2 t2 (check_payment gw1 m1 t1 w oid).1 oid
            = ((check_payment gw1 m1 t1 w oid).1, Reply.alreadyPaid, [])
        ∧ ((check_payment gw1 m1 t1 w oid).2.2
            ++ (check_payment gw2 m2 t2 (check_payment gw1 m1 t1 w oid).1 oid).2.2).countP
              Effect.isClearCart = 1
        ∧ (check_payment gw1 m1 t1 w oid).1.ocOrdersCreated
            ≤ w.ocOrdersCreated + 1) := by
  constructor
  · intro hp gw0 m0 t0
    simp [check_payment, hfind, hp]
  · intro hnp gw1 gw2 m1 m2 t1 t2 hgw
    have h2 : findOrder (update_status_orders t1 w.orders oid "paid") oid
        = some { o with
                 status := "paid",
                 updated_at := some t1,
                 paid_at := some t1 } := by
      have h3 := findOrder_update_status_self t1 w.orders oid "paid" o hfind
      simpa using h3
    cases m1 with
    | none =>
        refine ⟨?_, ?_, ?_, ?_⟩
        · simp [check_payment, hfind, hnp, hgw]
        · simp [check_payment, hfind, hnp, hgw, h2]
        · simp [check_payment, hfind, hnp, hgw, h2, List.countP_cons,
                Effect.isClearCart]
        · simp [check_payment, hfind, hnp, hgw]
    | some ocid =>
        have h4 : findOrder
            (update_opencart_order_id_orders t1
              (update_status_orders t1 w.orders oid "paid") oid ocid) oid
            = some { o with
                     status := "paid",
                     updated_at := some t1,
                     paid_at := some t1,
                     opencart_order_id := some ocid } :=
          findOrder_update_oc_self t1 _ oid ocid _ h2
        refine ⟨?_, ?_, ?_, ?_⟩
        · simp [check_payment, hfind, hnp, hgw]
        · simp [check_payment, hfind, hnp, hgw, h4]
        · simp [check_payment, hfind, hnp, hgw, h4, List.countP_cons,
                Effect.isClearCart]
        · simp [check_payment, hfind, hnp, hgw]

/-- Fixture: a pending order with a stored payment label. -/
def oW : Order :=
  { id := 1, user_id := 7, opencart_order_id := none,
    yoomoney_label := some "L1", amount := 500, status := "pending",
    customer_name := "A", customer_phone := "+70000000000",
    customer_email := none, delivery_address := none,
    delivery_comment := none, items := [], paid_at := none,
    updated_at := none }

/-- Fixture: a world holding the pending order and a non-empty cart for
its user. -/
def wC1 : World :=
  { orders := [oW], nextOrderId := 2,
    carts := fun u =>
      if u = 7 then [(1, { product_id := 1, quantity := 2, options := [] })]
      else [],
    catalog := fun _ => none, ocOrdersCreated := 0 }

/-- Fixture: a gateway that reports success for every label. -/
def gwS : Option String → GatewayStatus := fun _ => GatewayStatus.success

theorem C1_check_payment_idempotent_witness :
    findOrder wC1.orders 1 = some oW
    ∧ ((check_payment gwS none 0 wC1 1).1.carts oW.user_id = []
       ∧ check_payment gwS none 1 (check_payment gwS none 0 wC1 1).1 1
           = ((check_payment gwS none 0 wC1 1).1, Reply.alreadyPaid, [])
       ∧ ((check_payment gwS none 0 wC1 1).2.2
           ++ (check_payment gwS none 1 (check_payment gwS none 0 wC1 1).1 1).2.2).countP
             Effect.isClearCart = 1
       ∧ (check_payment gwS none 0 wC1 1).1.ocOrdersCreated
           ≤ wC1.ocOrdersCreated + 1) :=
  ⟨rfl, (C1_check_payment_idempotent wC1 1 oW rfl).2 (by decide)
    gwS gwS none none 0 1 rfl⟩

/-! ## Claim C2 -/

/-- Claim C2: on the transition to paid, check_payment first persists the
`"paid"` status (OrderService.update_status, which also stamps `paid_at`)
and only then clears the user's cart — the effect trace starts with the
status write followed by the cart clear.  Moreover, whatever the outcome
of the storefront mirroring step (`mirror` ranges over success and
failure), the stored order ends with status `"paid"` and `paid_at`
stamped: a mirroring failure never rolls the paid state back. -/
theorem C2_paid_persists_before_cart_clear
    (gw : Option String → GatewayStatus) (mirror : Option ℕ) (now : ℕ)
    (w : World) (oid : ℕ) (o : Order)
    (hfind : findOrder w.orders oid = some o)
    (hnp : o.status ≠ "paid")
    (hgw : gw o.yoomoney_label = GatewayStatus.success) :
    (∃ rest, (check_payment gw mirror now w oid).2.2
        = Effect.updateStatus oid "paid" :: Effect.clearCart o.user_id :: rest)
    ∧ (findOrder (check_payment gw mirror now w oid).1.orders oid).map
        Order.status = some "paid"
    ∧ (findOrder (check_payment gw mirror now w oid).1.orders oid).map
        Order.paid_at = some (some now) := by
  have h2 : findOrder (update_status_orders now w.orders oid "paid") oid
      = some { o with
               status := "paid",
               updated_at := some now,
               paid_at := some now } := by
    have h3 := findOrder_update_status_self now w.orders oid "paid" o hfind
    simpa using h3
  cases mirror with
  | none =>
      refine ⟨⟨[Effect.mirrorFailed], ?_⟩, ?_, ?_⟩
      · simp [check_payment, hfind, hnp, hgw]
      · simp [check_payment, hfind, hnp, hgw, h2]
      · simp [check_payment, hfind, hnp, hgw, h2]
  | some ocid =>
      have h4 : findOrder
          (update_opencart_order_id_orders now
            (update_status_orders now w.orders oid "paid") oid ocid) oid
          = some { o with
                   status := "paid",
                   updated_at := some now,
                   paid_at := some now,
                   opencart_order_id := some ocid } :=
        findOrder_update_oc_self now _ oid ocid _ h2
      refine ⟨⟨[Effect.ocOrderCreated oid ocid], ?_⟩, ?_, ?_⟩
      · simp [check_payment, hfind, hnp, hgw]
      · simp [check_payment, hfind, hnp, hgw, h4]
      · simp [check_payment, hfind, hnp, hgw, h4]

theorem C2_paid_persists_before_cart_clear_witness :
    findOrder wC1.orders 1 = some oW
    ∧ ((∃ rest, (check_payment gwS none 3 wC1 1).2.2
          = Effect.updateStatus 1 "paid" :: Effect.clearCart oW.user_id :: rest)
       ∧ (findOrder (check_payment gwS none 3 wC1 1).1.orders 1).map
           Order.status = some "paid"
       ∧ (findOrder (check_payment gwS none 3 wC1 1).1.orders 1).map
           Order.paid_at = some (some 3)) :=
  ⟨rfl, C2_paid_persists_before_cart_clear gwS none 3 wC1 1 oW rfl
    (by decide) rfl⟩

/-! ## Claim C6 -/

/-- Fixture: an order that is already paid. -/
def oPaid : Order :=
  { id := 1, user_id := 7, opencart_order_id := none,
    yoomoney_label := some "L1", amount := 500, status := "paid",
    customer_name := "A", customer_phone := "+70000000000",
    customer_email := none, delivery_address := none,
    delivery_comment := none, items := [], paid_at := some 1,
    updated_at := some 1 }

/-- Fixture: a world holding only the paid order. -/
def wC6 : World :=
  { orders := [oPaid], nextOrderId := 2, carts := fun _ => [],
    catalog := fun _ => none, ocOrdersCreated := 0 }

/-- Claim C6 as stated is refuted: the admin cancel handler
(`admin_cancel_order`, app/handlers/admin.py) calls
`OrderService.update_status(db, order_id, "cancelled")` without checking
the order's current status, so on a world holding a `"paid"` order it
moves that order to `"cancelled"` — a cancel path does move a non-pending
order to cancelled, and the paid order's status does not stay unchanged. -/
theorem C6_counterexample :
    (findOrder wC6.orders 1).map Order.status = some "paid"
    ∧ (findOrder (admin_cancel_order 5 wC6 1).1.orders 1).map Order.status
        = some "cancelled" := by
  constructor
  · rfl
  · rfl

/-- Claim C6, amended: the user-facing cancel handler (`cancel_payment`)
rejects cancellation of a `"paid"` order with the explicit
"contact support" alert and leaves the world unchanged, and cancels an
order of any other status; the admin cancel handler sets the status to
`"cancelled"` unconditionally, whatever the current status (the admin
keyboard only offers the button for pending orders, but the handler
re-checks nothing). -/
theorem C6_cancel_paths (now : ℕ) (w : World) (oid : ℕ) (o : Order)
    (hfind : findOrder w.orders oid = some o) :
    (o.status = "paid" →
      cancel_payment now w oid = (w, Reply.alreadyPaidContactSupport))
    ∧ (o.status ≠ "paid" →
      (findOrder (cancel_payment now w oid).1.orders oid).map Order.status
        = some "cancelled")
    ∧ (findOrder (admin_cancel_order now w oid).1.orders oid).map
        Order.status = some "cancelled" := by
  have h2 := findOrder_update_status_self now w.orders oid "cancelled" o hfind
  refine ⟨?_, ?_, ?_⟩
  · intro hp
    simp [cancel_payment, hfind, hp]
  · intro hnp
    simp [cancel_payment, hfind, hnp, h2]
  · simp [admin_cancel_order, h2]

theorem C6_cancel_paths_witness :
    findOrder wC1.orders 1 = some oW
    ∧ oW.status ≠ "paid"
    ∧ (findOrder (cancel_payment 0 wC1 1).1.orders 1).map Order.status
        = some "cancelled"
    ∧ (findOrder (admin_cancel_order 0 wC1 1).1.orders 1).map Order.status
        = some "cancelled" :=
  ⟨rfl, by decide,
   (C6_cancel_paths 0 wC1 1 oW rfl).2.1 (by decide),
   (C6_cancel_paths 0 wC1 1 oW rfl).2.2⟩

/-! ## Claim C7 -/

/-- Fixture: a catalog with one product priced 500.00. -/
def prodC7 : Product :=
  { product_id := 1, name := "P", description := "", model := "M",
    price := 500, quantity := 10, image := "" }

def catC7 : Catalog := fun pid => if pid = 1 then some prodC7 else none

/-- Fixture: no orders yet; user 7 has product 1 (qty 2) in the cart. -/
def wC7 : World :=
  { orders := [], nextOrderId := 1,
    carts := fun u =>
      if u = 7 then [(1, { product_id := 1, quantity := 2, options := [] })]
      else [],
    catalog := catC7, ocOrdersCreated := 0 }

def dC7 : CheckoutData :=
  { name := some "A", phone := some "+79161234567", email := none,
    address := some "Pickup", comment := none }

/-- Claim C7 as stated is refuted on its second half: after a gateway
failure (first `confirm_and_create_order` call with the gateway raising)
the user's retry re-runs checkout confirmation, and the source creates a
second order and stores the new payment label on that second order — it
does not attach a new reference to the existing order.  Concretely, after
failure and one retry the order table holds 2 orders and order 1 still
has no payment label. -/
theorem C7_counterexample :
    (confirm_and_create_order (some "L2") 1
        (confirm_and_create_order none 0 wC7 7 dC7).1 7 dC7).1.orders.length
      = 2
    ∧ (findOrder (confirm_and_create_order (some "L2") 1
        (confirm_and_create_order none 0 wC7 7 dC7).1 7 dC7).1.orders 1).map
        Order.yoomoney_label = some none := by
  constructor
  · rfl
  · rfl

/-- Claim C7, amended: if the gateway payment-creation call fails after
the order is created, the order is persisted in status `"pending"` with no
payment reference and the cart is left intact, so the user can retry; but
the retry re-runs checkout confirmation, which creates a second order and
attaches the new payment reference to that second order — the original
order stays `"pending"` with no reference rather than receiving the new
one. -/
theorem C7_gateway_failure_keeps_pending_retry_duplicates
    (w : World) (u : ℕ) (d : CheckoutData) (t1 t2 : ℕ) (lbl : String)
    (hne : (get_cart w.catalog (w.carts u)).items ≠ [])
    (hfresh : findOrder w.orders w.nextOrderId = none) :
    findOrder (confirm_and_create_order none t1 w u d).1.orders w.nextOrderId
      = some (create_order w.nextOrderId u (get_cart w.catalog (w.carts u)) d)
    ∧ (create_order w.nextOrderId u (get_cart w.catalog (w.carts u)) d).status
      = "pending"
    ∧ (create_order w.nextOrderId u
        (get_cart w.catalog (w.carts u)) d).yoomoney_label = none
    ∧ (confirm_and_create_order none t1 w u d).1.carts u = w.carts u
    ∧ (confirm_and_create_order (some lbl) t2
        (confirm_and_create_order none t1 w u d).1 u d).1.orders.length
      = w.orders.length + 2
    ∧ findOrder (confirm_and_create_order (some lbl) t2
        (confirm_and_create_order none t1 w u d).1 u d).1.orders w.nextOrderId
      = some (create_order w.nextOrderId u (get_cart w.catalog (w.carts u)) d) := by
  have e1 : confirm_and_create_order none t1 w u d
      = ({ w with
           orders := w.orders ++
             [create_order w.nextOrderId u (get_cart w.catalog (w.carts u)) d],
           nextOrderId := w.nextOrderId + 1 }, Reply.orderCreationError) := by
    simp [confirm_and_create_order, hne]
  have hself : findOrder
      [create_order w.nextOrderId u (get_cart w.catalog (w.carts u)) d]
      w.nextOrderId
      = some (create_order w.nextOrderId u (get_cart w.catalog (w.carts u)) d) := by
    simp [findOrder, create_order]
  have e2 : confirm_and_create_order (some lbl) t2
      (confirm_and_create_order none t1 w u d).1 u d
      = ({ w with
           orders := update_payment_label_orders t2
             ((w.orders ++
               [create_order w.nextOrderId u (get_cart w.catalog (w.carts u)) d])
              ++ [create_order (w.nextOrderId + 1) u
                    (get_cart w.catalog (w.carts u)) d])
             (w.nextOrderId + 1) lbl,
           nextOrderId := w.nextOrderId + 1 + 1 },
         Reply.orderCreated (w.nextOrderId + 1) lbl) := by
    rw [e1]
    simp [confirm_and_create_order, hne, create_order]
  have ho1 : findOrder
      ((w.orders ++
        [create_order w.nextOrderId u (get_cart w.catalog (w.carts u)) d])
       ++ [create_order (w.nextOrderId + 1) u
             (get_cart w.catalog (w.carts u)) d]) w.nextOrderId
      = some (create_order w.nextOrderId u (get_cart w.catalog (w.carts u)) d) := by
    rw [findOrder_append, findOrder_append, hfresh, hself]
    rfl
  refine ⟨?_, rfl, rfl, ?_, ?_, ?_⟩
  · rw [e1]
    show findOrder (w.orders ++ [_]) w.nextOrderId = _
    rw [findOrder_append, hfresh, hself]
    rfl
  · rw [e1]
  · rw [e2]
    show (update_payment_label_orders t2 _ _ lbl).length = w.orders.length + 2
    unfold update_payment_label_orders
    rw [List.length_map, List.length_append, List.length_append]
    simp
  · rw [e2]
    show findOrder (update_payment_label_orders t2 _ _ lbl) w.nextOrderId = _
    refine findOrder_update_label_other t2 _ w.nextOrderId (w.nextOrderId + 1)
      lbl _ ho1 ?_
    show ¬ w.nextOrderId = w.nextOrderId + 1
    omega

theorem C7_gateway_failure_keeps_pending_retry_duplicates_witness :
    (get_cart wC7.catalog (wC7.carts 7)).items ≠ []
    ∧ findOrder wC7.orders wC7.nextOrderId = none
    ∧ findOrder (confirm_and_create_order none 0 wC7 7 dC7).1.orders
        wC7.nextOrderId
      = some (create_order wC7.nextOrderId 7
          (get_cart wC7.catalog (wC7.carts 7)) dC7)
    ∧ (confirm_and_create_order (some "L2") 1
        (confirm_and_create_order none 0 wC7 7 dC7).1 7 dC7).1.orders.length
      = wC7.orders.length + 2 := by
  have h := C7_gateway_failure_keeps_pending_retry_duplicates wC7 7 dC7 0 1
    "L2" (by decide) (by decide)
  exact ⟨by decide, by decide, h.1, h.2.2.2.2.1⟩

/-! ## Claim C8 -/

/-- Claim C8: a manually entered phone whose stripped text contains fewer
than 10 digits is rejected — the FSM stays in `waiting_phone_manual`, the
stored data is untouched and nothing is written to the profile; the input
`"89161234567"` is normalised to `"+79161234567"` and the dialogue
advances to the confirmation state. -/
theorem C8_process_phone_manual_validation (text : String)
    (dp : Option String)
    (hshort : (phone_digits (pyStrip text)).length < 10) :
    process_phone_manual text dp
      = { state := CheckoutState.waiting_phone_manual, data_phone := dp,
          profile_phone_written := none, accepted := false }
    ∧ process_phone_manual "89161234567" none
      = { state := CheckoutState.confirm,
          data_phone := some "+79161234567",
          profile_phone_written := some "+79161234567",
          accepted := true } := by
  constructor
  · simp [process_phone_manual, hshort]
  · decide

theorem C8_process_phone_manual_validation_witness :
    (phone_digits (pyStrip "916123456")).length < 10
    ∧ process_phone_manual "916123456" (some "+70000000000")
      = { state := CheckoutState.waiting_phone_manual,
          data_phone := some "+70000000000",
          profile_phone_written := none, accepted := false }
    ∧ process_phone_manual "89161234567" none
      = { state := CheckoutState.confirm,
          data_phone := some "+79161234567",
          profile_phone_written := some "+79161234567",
          accepted := true } := by
  have h := C8_process_phone_manual_validation "916123456"
    (some "+70000000000") (by decide)
  exact ⟨by decide, h.1, h.2⟩

/-! ## Claim C9 -/

/-- Fixture: a product whose decimal catalog price 0.1000 is not a dyadic
rational, hence not representable as a binary64 float. -/
def prodC9 : Product :=
  { product_id := 1, name := "P", description := "", model := "M",
    price := mkRat 1 10, quantity := 10, image := "" }

def catC9 : Catalog := fun pid => if pid = 1 then some prodC9 else none

def cartC9 : Cart := [(1, { product_id := 1, quantity := 3, options := [] })]

/-- Fixture: the spec's own example, price 500.00 and quantity 2, whose
values are dyadic and therefore float-exact. -/
def prodC9b : Product :=
  { product_id := 2, name := "Q", description := "", model := "M2",
    price := 500, quantity := 10, image := "" }

def catC9b : Catalog := fun pid => if pid = 2 then some prodC9b else none

def cartC9b : Cart := [(2, { product_id := 2, quantity := 2, options := [] })]

unseal Rat.mul Rat.inv Rat.add Rat.sub in
/-- Claim C9 as stated is refuted: the authoritative money path is
computed in IEEE-754 binary64 floating point, not in exact decimals.  For
the decimal catalog price 0.1000 and quantity 3, the float-level total
computed by the source (`float(product.price)`, float multiply, float
accumulate) differs from the exact decimal total 0.30, and already the
`float(product.price)` conversion changes the value 0.1. -/
theorem C9_counterexample :
    get_cart_total_float catC9 cartC9 ≠ (get_cart catC9 cartC9).total
    ∧ (get_cart catC9 cartC9).total = mkRat 3 10
    ∧ fl64 (mkRat 1 10) ≠ mkRat 1 10 := by
  refine ⟨?_, ?_, ?_⟩
  · decide
  · decide
  · decide

unseal Rat.mul Rat.inv Rat.add Rat.sub in
/-- Claim C9, amended: monetary amounts on the authoritative path are
Python floats (IEEE-754 binary64): `OpenCartService.get_products_batch`
converts the decimal database price with `float(...)`,
`CartService.get_cart` multiplies and accumulates in float, and
`float(order.amount)` is what reaches the gateway.  For dyadic values
such as the spec's example price 500.00 × 2 the float path coincides with
the exact decimal total, but for non-dyadic decimal prices such as 0.10
it does not — amounts are neither decimal-represented nor guaranteed
currency-exact. -/
theorem C9_money_path_is_binary64 :
    get_cart_total_float catC9b cartC9b = (get_cart catC9b cartC9b).total
    ∧ (get_cart catC9b cartC9b).total = 1000
    ∧ get_cart_total_float catC9 cartC9 ≠ (get_cart catC9 cartC9).total := by
  refine ⟨?_, ?_, ?_⟩
  · decide
  · decide
  · decide

/-! ## Helper lemmas: the float-level cart view -/

/-- The view item `get_cart_float` builds for a resolvable line (whose
product dictionary already carries the float price). -/
def floatViewItemOf (e : ℕ × CartItem) (p : Product) : CartViewItem :=
  { product_id := e.1, product := p, quantity := e.2.quantity,
    options := e.2.options, subtotal := flMul p.price (e.2.quantity : ℚ) }

lemma foldl_cart_view_step_float (f : ℕ → Option Product) (c : Cart)
    (acc : List CartViewItem × ℚ) :
    c.foldl (cart_view_step_float f) acc
      = (acc.1 ++ c.filterMap (fun e => (f e.1).map (floatViewItemOf e)),
         (c.filterMap (fun e =>
            (f e.1).map (fun p => flMul p.price (e.2.quantity : ℚ)))).foldl
           flAdd acc.2) := by
  induction c generalizing acc with
  | nil => simp
  | cons e c ih =>
      rw [List.foldl_cons]
      cases hfe : f e.1 with
      | none =>
          have hstep : cart_view_step_float f acc e = acc := by
            unfold cart_view_step_float; rw [hfe]
          rw [hstep, ih]
          simp [List.filterMap_cons, hfe]
      | some p =>
          have hstep : cart_view_step_float f acc e
              = (acc.1 ++ [floatViewItemOf e p],
                 flAdd acc.2 (flMul p.price (e.2.quantity : ℚ))) := by
            unfold cart_view_step_float; rw [hfe]; rfl
          rw [hstep, ih]
          simp [List.filterMap_cons, hfe, floatViewItemOf]

/-- Closed form of `get_cart_float`: the view lists exactly the lines
that resolve in the catalog, each carrying the float price and float
subtotal, and the total is the left-to-right binary64 accumulation of
those subtotals. -/
lemma get_cart_float_eq (cat : Catalog) (c : Cart) :
    get_cart_float cat c
      = { items := c.filterMap (fun e =>
            (cat e.1).map (fun p => floatViewItemOf e (floatPrice p))),
          total := (float_line_subtotals cat c).foldl flAdd 0 } := by
  unfold get_cart_float
  by_cases hc : c = []
  · subst hc; simp [float_line_subtotals]
  · rw [if_neg hc]
    simp only [foldl_cart_view_step_float, List.nil_append]
    have h1 : c.filterMap (fun e =>
          ((get_products_batch_float cat (c.map (fun x => x.1))) e.1).map
            (floatViewItemOf e))
        = c.filterMap (fun e =>
            (cat e.1).map (fun p => floatViewItemOf e (floatPrice p))) := by
      refine List.filterMap_congr (fun e he => ?_)
      have hm : e.1 ∈ c.map (fun x => x.1) := List.mem_map_of_mem _ he
      unfold get_products_batch_float get_products_batch
      rw [if_pos hm, Option.map_map]
      rfl
    have h2 : c.filterMap (fun e =>
          ((get_products_batch_float cat (c.map (fun x => x.1))) e.1).map
            (fun p => flMul p.price (e.2.quantity : ℚ)))
        = float_line_subtotals cat c := by
      unfold float_line_subtotals
      refine List.filterMap_congr (fun e he => ?_)
      have hm : e.1 ∈ c.map (fun x => x.1) := List.mem_map_of_mem _ he
      unfold get_products_batch_float get_products_batch
      rw [if_pos hm, Option.map_map]
      rfl
    rw [h1, h2]

lemma get_cart_float_items_pids (cat : Catalog) (c : Cart) :
    (get_cart_float cat c).items.map (fun it => it.product_id)
      = (c.filter (fun e => (cat e.1).isSome)).map (fun e => e.1) := by
  rw [get_cart_float_eq]
  show (c.filterMap _).map _ = _
  induction c with
  | nil => simp
  | cons e c ih =>
      cases hce : cat e.1 with
      | none => simpa [List.filterMap_cons, List.filter_cons, hce] using ih
      | some p =>
          simpa [List.filterMap_cons, List.filter_cons, hce, floatViewItemOf]
            using ih

lemma get_cart_float_items_subtotals (cat : Catalog) (c : Cart) :
    (get_cart_float cat c).items.map (fun it => it.subtotal)
      = float_line_subtotals cat c := by
  rw [get_cart_float_eq]
  show (c.filterMap _).map _ = _
  rw [List.map_filterMap]
  unfold float_line_subtotals
  refine List.filterMap_congr (fun e _ => ?_)
  rw [Option.map_map]
  rfl

/-- The loop body of `get_cart_total_float`, named so that its fold can
be characterised. -/
def total_float_step (f : ℕ → Option Product) (total : ℚ)
    (e : ℕ × CartItem) : ℚ :=
  match f e.1 with
  | some p => flAdd total (flMul (fl64 p.price) (e.2.quantity : ℚ))
  | none => total

lemma foldl_total_float_step (f : ℕ → Option Product) (c : Cart) (acc : ℚ) :
    c.foldl (total_float_step f) acc
      = (c.filterMap (fun e =>
          (f e.1).map (fun p => flMul (fl64 p.price) (e.2.quantity : ℚ)))).foldl
          flAdd acc := by
  induction c generalizing acc with
  | nil => simp
  | cons e c ih =>
      rw [List.foldl_cons]
      cases hfe : f e.1 with
      | none =>
          have hstep : total_float_step f acc e = acc := by
            unfold total_float_step; rw [hfe]
          rw [hstep, ih]
          simp [List.filterMap_cons, hfe]
      | some p =>
          have hstep : total_float_step f acc e
              = flAdd acc (flMul (fl64 p.price) (e.2.quantity : ℚ)) := by
            unfold total_float_step; rw [hfe]
          rw [hstep, ih]
          simp [List.filterMap_cons, hfe]

/-- The two float models agree: the flat total fold used by the C9 claim
computes exactly the total of the full float view. -/
lemma get_cart_total_float_eq_view (cat : Catalog) (c : Cart) :
    get_cart_total_float cat c = (get_cart_float cat c).total := by
  rw [get_cart_float_eq]
  show c.foldl (total_float_step (get_products_batch cat (c.map (fun x => x.1)))) 0
      = (float_line_subtotals cat c).foldl flAdd 0
  rw [foldl_total_float_step]
  congr 1
  unfold float_line_subtotals
  refine List.filterMap_congr (fun e he => ?_)
  have hm : e.1 ∈ c.map (fun x => x.1) := List.mem_map_of_mem _ he
  unfold get_products_batch
  rw [if_pos hm]

lemma create_order_float_item_subtotals (cat : Catalog) (c : Cart)
    (oid uid : ℕ) (d : CheckoutData) :
    (create_order_float oid uid (get_cart_float cat c) d).items.map
        (fun i => flMul i.price (i.quantity : ℚ))
      = float_line_subtotals cat c := by
  show ((get_cart_float cat c).items.map _).map _ = _
  rw [get_cart_float_eq]
  show ((c.filterMap _).map _).map _ = _
  rw [List.map_map, List.map_filterMap]
  unfold float_line_subtotals
  refine List.filterMap_congr (fun e _ => ?_)
  rw [Option.map_map]
  rfl

lemma create_order_float_item_prices (cat : Catalog) (c : Cart)
    (oid uid : ℕ) (d : CheckoutData) :
    (create_order_float oid uid (get_cart_float cat c) d).items.map
        (fun i => i.price)
      = c.filterMap (fun e => (cat e.1).map (fun p => fl64 p.price)) := by
  show ((get_cart_float cat c).items.map _).map _ = _
  rw [get_cart_float_eq]
  show ((c.filterMap _).map _).map _ = _
  rw [List.map_map, List.map_filterMap]
  refine List.filterMap_congr (fun e _ => ?_)
  rw [Option.map_map]
  rfl

/-! ## Claim C5 -/

unseal Rat.mul Rat.inv Rat.add Rat.sub in
/-- Claim C5 as stated is refuted on its total-equality part: the source
computes the view total in binary64 (`float(product.price)`, float
multiplication, float accumulation), so for the catalog price 0.1000 and
quantity 3 the total `get_cart` returns differs from the exact sum of
quantity × current catalog price over the resolvable lines, which is
0.30. -/
theorem C5_counterexample :
    (get_cart_float catC9 cartC9).total
      ≠ (cartC9.filterMap (fun e =>
          (catC9 e.1).map (fun p => p.price * (e.2.quantity : ℚ)))).sum
    ∧ (cartC9.filterMap (fun e =>
          (catC9 e.1).map (fun p => p.price * (e.2.quantity : ℚ)))).sum
      = mkRat 3 10 := by
  constructor
  · decide
  · decide

unseal Rat.mul Rat.inv Rat.add Rat.sub in
/-- Claim C5, amended: `get_cart` returns a view whose total is the
binary64 accumulation of `float(current catalog price) × quantity` over
the stored lines resolvable in the catalog — equal to the exact sum of
quantity × price when the values are float-exact (the 500.00 × 2
conjunct) but not in general; every line whose product id is not
resolvable is excluded from the returned items and total but remains in
storage (the call only reads), and `get_cart` never raises on a
partially-resolvable cart (the model is a total function; the source
additionally degrades to an empty view if the store itself errors). -/
theorem C5_get_cart_float_view (cat : Catalog) (c : Cart) :
    (get_cart_float cat c).total = flSum (float_line_subtotals cat c)
    ∧ (get_cart_float cat c).items.map (fun it => it.product_id)
        = (c.filter (fun e => (cat e.1).isSome)).map (fun e => e.1)
    ∧ (get_cart_float cat c).items.map (fun it => it.subtotal)
        = float_line_subtotals cat c
    ∧ get_cart_total_float cat c = (get_cart_float cat c).total
    ∧ get_cart_store_after cat c = c
    ∧ (get_cart_float catC9b cartC9b).total
        = (cartC9b.filterMap (fun e =>
            (catC9b e.1).map (fun p => p.price * (e.2.quantity : ℚ)))).sum := by
  refine ⟨?_, get_cart_float_items_pids cat c,
    get_cart_float_items_subtotals cat c, get_cart_total_float_eq_view cat c,
    rfl, by decide⟩
  rw [get_cart_float_eq]
  rfl

/-! ## Claim C3 -/

unseal Rat.mul Rat.inv Rat.add Rat.sub in
/-- Claim C3 as stated is refuted on its amount-equality part: the source
snapshots binary64 float prices and persists the binary64 cart total into
the `Numeric(10,2)` column.  For the catalog price 0.1000 and quantity 3
the persisted amount (the quantized float total, 0.30) differs both from
the sum of the snapshotted item subtotals (3 × float(0.1)) and from the
float cart total at creation time. -/
theorem C3_counterexample :
    (create_order_float 1 7 (get_cart_float catC9 cartC9) dC7).amount
      ≠ ((create_order_float 1 7 (get_cart_float catC9 cartC9) dC7).items.map
          (fun i => i.price * (i.quantity : ℚ))).sum
    ∧ (create_order_float 1 7 (get_cart_float catC9 cartC9) dC7).amount
      ≠ (get_cart_float catC9 cartC9).total := by
  constructor
  · decide
  · decide

unseal Rat.mul Rat.inv Rat.add Rat.sub in
/-- Claim C3, amended: `create_order` freezes the float snapshot.  The
persisted amount is the binary64 cart total at creation time, quantized
to 2 decimals by the `Numeric(10,2)` column; that float total is the
binary64 accumulation of the snapshotted float subtotals; each
snapshotted item price is `float(...)` of the catalog price at that
instant; and any subsequent sequence of catalog price changes leaves the
stored order (amount and item prices included) bit-for-bit unchanged.
The persisted amount coincides with the exact decimal sum of
price × quantity only for float-exact values, as in the 500.00 × 2
conjunct. -/
theorem C3_create_order_float_freezes_snapshot (cat : Catalog) (c : Cart)
    (oid uid : ℕ) (d : CheckoutData) (carts : ℕ → Cart) (nid oc : ℕ)
    (changes : List (ℕ × ℚ)) :
    (create_order_float oid uid (get_cart_float cat c) d).amount
      = quantize2 (get_cart_float cat c).total
    ∧ (get_cart_float cat c).total = flSum (float_line_subtotals cat c)
    ∧ (create_order_float oid uid (get_cart_float cat c) d).items.map
        (fun i => flMul i.price (i.quantity : ℚ)) = float_line_subtotals cat c
    ∧ (create_order_float oid uid (get_cart_float cat c) d).items.map
        (fun i => i.price)
      = c.filterMap (fun e => (cat e.1).map (fun p => fl64 p.price))
    ∧ (applyPriceChanges
        { orders := [create_order_float oid uid (get_cart_float cat c) d],
          nextOrderId := nid, carts := carts, catalog := cat,
          ocOrdersCreated := oc } changes).orders
      = [create_order_float oid uid (get_cart_float cat c) d]
    ∧ (create_order_float 11 7 (get_cart_float catC9b cartC9b) dC7).amount
      = (cartC9b.filterMap (fun e =>
          (catC9b e.1).map (fun p => p.price * (e.2.quantity : ℚ)))).sum := by
  refine ⟨rfl, ?_, create_order_float_item_subtotals cat c oid uid d,
    create_order_float_item_prices cat c oid uid d,
    applyPriceChanges_orders changes _, by decide⟩
  rw [get_cart_float_eq]
  rfl

end WifiObdBot
